import Mathlib

/-!
A shallow embedding of the FinChat query-routing core: the intent detectors
and priority dispatcher of `core/query_router.py`, the financial calculators
of `agents/calculator.py`, and the configuration constants of `config.py`.

Conventions of the embedding:
* Python strings are `String` / `List Char`; `str.lower()` is `lowerL`
  (queries are ASCII, where `Char.toLower` agrees with Python).
* The regular expressions of the source are embedded as executable scanners
  over `List Char` that implement exactly the `re.search` semantics of each
  concrete pattern (leftmost match, ordered alternation, greedy repetition;
  greedy-vs-backtracking distinctions are observationally irrelevant for
  these patterns because no pattern element after a repetition can match a
  character of the repeated class, as noted at each scanner).
* Parsed numeric literals (`\d+(?:\.\d+)?`) are kept exact as `Dec`
  (integer part, fraction numerator, fraction denominator `10^k`);
  Python's `int(x)` on the nonnegative parsed values is `Nat` division.
* Python float arithmetic in the calculators is idealized as exact `ℚ`
  (and as `ℝ` for the one fractional-exponent power in `retirement_corpus`);
  `round(x, n)` is idealized as round-half-to-even (`pyRound`), which is
  Python's rounding mode.
* A Python function that can return a `{"error": msg}` dictionary or raise
  an uncaught exception returns a `PyResult`: `.ok payload`,
  `.errDict msg` (a returned error dictionary), or `.exn` (a raised,
  uncaught exception).
-/

namespace FinChat

/-! ## Basic string machinery -/

/-- Python `str.lower()` (ASCII agreement). -/
def lowerL (s : List Char) : List Char := s.map Char.toLower

/-- Regex word character (`\w`): alphanumeric or underscore. -/
def isWordChar (c : Char) : Bool := c.isAlphanum || c == '_'

/-- Python regex whitespace `\s` (the form-feed and vertical-tab cases are
immaterial for query text). -/
def isPySpace (c : Char) : Bool :=
  c == ' ' || c == '\t' || c == '\n' || c == '\r'

/-- Regex digit `\d` (ASCII; query text is ASCII). -/
def isDigitC (c : Char) : Bool := c.isDigit

/-- Python substring test `needle in hay` on char lists. -/
def containsSubL (needle : List Char) : List Char → Bool
  | [] => needle.isEmpty
  | c :: t => needle.isPrefixOf (c :: t) || containsSubL needle t

/-- Python `needle in hay` where `needle` is a string literal and `hay` a
lowered char list. -/
def pyInL (needle : String) (hay : List Char) : Bool :=
  containsSubL needle.data hay

/-- Word-boundary (`\b`) test between an optional previous character and an
optional next character. -/
def boundaryB (prev next : Option Char) : Bool :=
  (match prev with | none => false | some c => isWordChar c) !=
  (match next with | none => false | some c => isWordChar c)

/-! ## A matcher for the stock-metric regular expressions

`QueryRouter._detect_stock_metric` uses eight patterns built only from
literal characters, `\s+`, `\b`, and one optional group `(?:ratio\s+)?`.
`Atom` and `RE` cover exactly these constructs. `\s+` is matched by maximal
munch, which agrees with Python's greedy matching here because in every
pattern the element following `\s+` begins with a non-space literal. -/

inductive Atom where
  | lit : Char → Atom
  | ws : Atom
  | wb : Atom
deriving DecidableEq

inductive RE where
  | atom : Atom → RE
  | opt : List Atom → RE
deriving DecidableEq

/-- Match a sequence of atoms at the head of the input. `prev` is the
character just before the current position (for `\b`). Returns the new
`prev` and the remaining input on success. -/
def matchAtoms : List Atom → Option Char → List Char → Option (Option Char × List Char)
  | [], prev, s => some (prev, s)
  | .lit c :: as, _, s =>
    match s with
    | [] => none
    | c' :: rest => if c' == c then matchAtoms as (some c') rest else none
  | .ws :: as, _, s =>
    match s with
    | [] => none
    | c' :: rest =>
      if isPySpace c' then
        match (c' :: rest).span isPySpace with
        | (sp, rest') =>
          match sp.getLast? with
          | some l => matchAtoms as (some l) rest'
          | none => none
      else none
  | .wb :: as, prev, s =>
    if boundaryB prev s.head? then matchAtoms as prev s else none

/-- Match a regex (a list of `RE` items) at the head of the input, trying the
optional group first (greedy) and falling back to skipping it, as Python
does. -/
def matchREs : List RE → Option Char → List Char → Bool
  | [], _, _ => true
  | .atom a :: ps, prev, s =>
    match matchAtoms [a] prev s with
    | some (prev', s') => matchREs ps prev' s'
    | none => false
  | .opt as :: ps, prev, s =>
    (match matchAtoms as prev s with
     | some (prev', s') => matchREs ps prev' s'
     | none => false) || matchREs ps prev s

/-- `re.search`: try a match at every position, left to right. -/
def searchRE (ps : List RE) : Option Char → List Char → Bool
  | prev, [] => matchREs ps prev []
  | prev, c :: rest => matchREs ps prev (c :: rest) || searchRE ps (some c) rest

/-- `re.search(pattern, s)` from the start of `s`. -/
def reSearch (ps : List RE) (s : List Char) : Bool := searchRE ps none s

/-- Literal characters of a string as atoms. -/
def litsOf (str : String) : List Atom := str.data.map Atom.lit

/-- Lift atoms to regex items. -/
def atomsOf (l : List Atom) : List RE := l.map RE.atom

/-! ## Exact decimal numbers and the numeric scanners -/

/-- The exact value of a matched `\d+(?:\.\d+)?` group: integer part,
fraction numerator and fraction denominator (`10 ^ count of fraction
digits`; `⟨i, 0, 1⟩` when no fraction was matched). Value: `i + n / d`. -/
structure Dec where
  ipart : ℕ
  fnum : ℕ
  fden : ℕ
deriving DecidableEq

/-- The rational value of a parsed decimal. -/
def Dec.toQ (d : Dec) : ℚ := (d.ipart : ℚ) + (d.fnum : ℚ) / (d.fden : ℚ)

/-- Python `int(val * m)` for a nonnegative parsed decimal `val` and a
natural multiplier `m` (truncation toward zero = floor = `Nat` division). -/
def Dec.scaleFloor (d : Dec) (m : ℕ) : ℕ :=
  ((d.ipart * d.fden + d.fnum) * m) / d.fden

/-- Python `int(val)` for a nonnegative parsed decimal. -/
def Dec.toNatFloor (d : Dec) : ℕ := d.ipart

/-- `n ≤ val` for a parsed decimal (used for lower bounds on floats). -/
def Dec.geNat (d : Dec) (n : ℕ) : Bool := n * d.fden ≤ d.ipart * d.fden + d.fnum

/-- `val ≤ n` for a parsed decimal (used for upper bounds on floats). -/
def Dec.leNat (d : Dec) (n : ℕ) : Bool := d.ipart * d.fden + d.fnum ≤ n * d.fden

/-- Numeric value of a digit run. -/
def natOfDigits (ds : List Char) : ℕ :=
  ds.foldl (fun n c => n * 10 + (c.toNat - '0'.toNat)) 0

/-- Match `\d+(?:\.\d+)?` at the head of the input: maximal digit run, then
optionally a dot followed by a nonempty maximal digit run. Greedy maximal
munch agrees with Python backtracking here: giving back a digit would leave
a digit as the next input character, which never matches the follower. -/
def takeNumber (s : List Char) : Option (Dec × List Char) :=
  match s.span isDigitC with
  | (ds, rest) =>
    if ds.isEmpty then none
    else match rest with
      | '.' :: r2 =>
        (match r2.span isDigitC with
         | (fs, r3) =>
           if fs.isEmpty then some (⟨natOfDigits ds, 0, 1⟩, rest)
           else some (⟨natOfDigits ds, natOfDigits fs, 10 ^ fs.length⟩, r3))
      | _ => some (⟨natOfDigits ds, 0, 1⟩, rest)

/-- `\s*` by maximal munch (every use is followed by a non-space check). -/
def skipSpacesL (s : List Char) : List Char := (s.span isPySpace).2

/-- Ordered alternation `(a1|a2|...)` as a prefix of the input: the first
alternative that is a prefix wins, exactly Python's leftmost-alternative
rule. Returns the matched alternative and the rest. -/
def altAt (alts : List String) (s : List Char) : Option (String × List Char)
  :=
  match alts with
  | [] => none
  | a :: rest =>
    if a.data.isPrefixOf s then some (a, s.drop a.data.length)
    else altAt rest s

/-- `re.search(r'(\d+(?:\.\d+)?)\s*(u1|u2|...)?', q)`: the unit group is
optional, so the leftmost match always starts at the first digit of the
input. Returns the parsed number and the matched unit alternative (`""`
when the optional group matched nothing), as in `_detect_emi` /
`_detect_portfolio`. -/
def searchNumUnit (units : List String) : List Char → Option (Dec × String)
  | [] => none
  | c :: rest =>
    if isDigitC c then
      match takeNumber (c :: rest) with
      | some (v, r) =>
        (match altAt units (skipSpacesL r) with
         | some (u, _) => some (v, u)
         | none => some (v, ""))
      | none => none
    else searchNumUnit units rest

/-- `re.search(r'(\d+(?:\.\d+)?)\s*t', q)` with `t` a literal character,
optionally followed by `\b` (`needWB`), as in the SIP `k`-pattern and the
EMI percent pattern. Position-by-position search exactly as `re.search`;
a failing attempt at an interior digit of a number consumes the same span
as the failing attempt at its first digit, so stepping one character at a
time is the Python behaviour verbatim. -/
def searchNumThen (t : Char) (needWB : Bool) : List Char → Option Dec
  | [] => none
  | c :: rest =>
    match
      (if isDigitC c then
        match takeNumber (c :: rest) with
        | some (v, r) =>
          (match skipSpacesL r with
           | t' :: r3 =>
             if t' == t && (!needWB || boundaryB (some t') r3.head?) then some v
             else none
           | [] => none)
        | none => none
      else none) with
    | some v => some v
    | none => searchNumThen t needWB rest

/-- `re.search(r'(\d{3,9})', q)`: the leftmost position from which at least
three digits follow; greedy, so the match takes at most nine of them. -/
def searchPlainInt : List Char → Option ℕ
  | [] => none
  | c :: rest =>
    if isDigitC c then
      match (c :: rest).span isDigitC with
      | (ds, _) =>
        if 3 ≤ ds.length then some (natOfDigits (ds.take 9))
        else searchPlainInt rest
    else searchPlainInt rest

/-- `re.search(r'(\d{1,2})\s*(a1|a2|...)', q)` as in the SIP / EMI year
patterns. A position matches exactly when at most two digits remain in the
digit run starting there (with three or more, the character after the
greedy-or-backtracked `\d{1,2}` group is again a digit, which no
alternative begins with) and an alternative follows the run and the
spaces. -/
def searchYears (alts : List String) : List Char → Option ℕ
  | [] => none
  | c :: rest =>
    match
      (if isDigitC c then
        match (c :: rest).span isDigitC with
        | (ds, r) =>
          if ds.length ≤ 2 then
            match altAt alts (skipSpacesL r) with
            | some _ => some (natOfDigits ds)
            | none => none
          else none
      else none) with
    | some n => some n
    | none => searchYears alts rest

/-- One attempt of `(?:kw1|kw2|...)\s*(\d{1,2})` at a fixed position: the
alternatives are tried in order; on a failing digit group the matcher
backtracks to the next alternative. -/
def tryKwNumAt : List String → List Char → Option ℕ
  | [], _ => none
  | kw :: ks, s =>
    if kw.data.isPrefixOf s then
      match (skipSpacesL (s.drop kw.data.length)).span isDigitC with
      | (ds, _) =>
        if ds.isEmpty then tryKwNumAt ks s
        else some (natOfDigits (ds.take 2))
    else tryKwNumAt ks s

/-- `re.search(r'(?:age|i am|i\'m)\s*(\d{1,2})', q)` (retirement detector,
current age). -/
def searchKwNum (kws : List String) : List Char → Option ℕ
  | [] => none
  | c :: rest =>
    match tryKwNumAt kws (c :: rest) with
    | some n => some n
    | none => searchKwNum kws rest

/-- One attempt of `kw1\s*kw2\s*(\d{2})` at a fixed position (one
alternative of the retirement-age pattern). -/
def tryKwPairNumAt (kw1 kw2 : String) (s : List Char) : Option ℕ :=
  if kw1.data.isPrefixOf s then
    let r := skipSpacesL (s.drop kw1.data.length)
    if kw2.data.isPrefixOf r then
      match (skipSpacesL (r.drop kw2.data.length)).span isDigitC with
      | (ds, _) => if 2 ≤ ds.length then some (natOfDigits (ds.take 2)) else none
    else none
  else none

/-- `re.search(r'(?:retire\s*at|retirement\s*age)\s*(\d{2})', q)`
(retirement detector, retirement age). -/
def searchRetireAge : List Char → Option ℕ
  | [] => none
  | c :: rest =>
    match
      (match tryKwPairNumAt "retire" "at" (c :: rest) with
       | some n => some n
       | none => tryKwPairNumAt "retirement" "age" (c :: rest)) with
    | some n => some n
    | none => searchRetireAge rest

/-- One attempt of `(?:kw...)\s*(\d+(?:\.\d+)?)\s*(unit...)?` at a fixed
position (the monthly-expense pattern of the retirement detector). -/
def tryKwNumUnitAt : List String → List String → List Char → Option (Dec × String)
  | [], _, _ => none
  | kw :: ks, units, s =>
    if kw.data.isPrefixOf s then
      match takeNumber (skipSpacesL (s.drop kw.data.length)) with
      | some (v, r) =>
        (match altAt units (skipSpacesL r) with
         | some (u, _) => some (v, u)
         | none => some (v, ""))
      | none => tryKwNumUnitAt ks units s
    else tryKwNumUnitAt ks units s

/-- `re.search(r'(?:expense|spend|need)\s*(\d+(?:\.\d+)?)\s*(k|lakh|lakhs|crore|cr)?', q)`. -/
def searchKwNumUnit (kws units : List String) : List Char → Option (Dec × String)
  | [] => none
  | c :: rest =>
    match tryKwNumUnitAt kws units (c :: rest) with
    | some p => some p
    | none => searchKwNumUnit kws units rest

/-- The unit-multiplier chain shared verbatim by `_detect_emi`,
`_detect_retirement` and `_detect_portfolio`:
`if "lakh" in unit: int(val*100000) elif "crore" in unit or "cr" in unit:
int(val*10000000) elif "k" in unit: int(val*1000) else: int(val)`. -/
def resolveAmt (v : Dec) (unit : String) : ℕ :=
  if pyInL "lakh" unit.data then v.scaleFloor 100000
  else if pyInL "crore" unit.data || pyInL "cr" unit.data then v.scaleFloor 10000000
  else if pyInL "k" unit.data then v.scaleFloor 1000
  else v.toNatFloor

/-! ## Configuration constants (`config.py`) -/

def DEFAULT_SIP_RETURN : ℚ := 0.12
def DEFAULT_EMI_INTEREST : Dec := ⟨8, 5, 10⟩
def DEFAULT_INFLATION : ℚ := 0.06
def DEFAULT_POST_RET_RETURN : ℚ := 0.04
def DEFAULT_POST_RET_YEARS : ℕ := 25

def SIP_MIN_AMOUNT : ℕ := 100
def SIP_MAX_AMOUNT : ℕ := 1000000
def SIP_MIN_YEARS : ℕ := 1
def SIP_MAX_YEARS : ℕ := 50

def EMI_MIN_LOAN : ℕ := 50000
def EMI_MAX_LOAN : ℕ := 100000000
def EMI_MIN_INTEREST : ℕ := 1
def EMI_MAX_INTEREST : ℕ := 30
def EMI_MIN_TENURE : ℕ := 1
def EMI_MAX_TENURE : ℕ := 30

def MIN_AGE : ℤ := 18
def MAX_AGE : ℤ := 80
def MIN_RETIREMENT_AGE : ℤ := 30
def MAX_RETIREMENT_AGE : ℤ := 100

def MIN_INVESTMENT : ℕ := 1000
def MAX_INVESTMENT : ℕ := 100000000

def MIN_MONTHLY_EXPENSE : ℤ := 1000
def MAX_MONTHLY_EXPENSE : ℤ := 1000000

def MF_TOP_FUNDS_LIMIT : ℕ := 10

/-! ## Data model: profile snapshot, action parameters, detected actions -/

/-- The profile snapshot a detector consults
(`_get_cached_profile(user_id).get("profile", {})`): the fields the router
reads, each absent when the stored profile lacks it (or, for
`monthly_income`, when the stored value is not numeric — the router's
`isinstance` test then fails exactly like a missing value). -/
structure Profile where
  age : Option ℤ := none
  monthly_income : Option ℚ := none
  risk_appetite : Option String := none
deriving DecidableEq

/-- The parameter dictionary of a detected action: one optional field per
key that any of the nine actions ever stores or reads. -/
structure Params where
  query : Option String := none
  category : Option String := none
  limit : Option ℕ := none
  monthly_sip : Option ℕ := none
  years : Option ℕ := none
  expected_return : Option ℚ := none
  loan_amount : Option ℕ := none
  interest_rate : Option Dec := none
  tenure_years : Option ℕ := none
  current_age : Option ℤ := none
  retirement_age : Option ℤ := none
  monthly_expense : Option ℤ := none
  age : Option ℤ := none
  risk_appetite : Option String := none
  investment_amount : Option ℕ := none
deriving DecidableEq

/-- The empty parameter dictionary. -/
def Params.empty : Params := {}

/-- A detected action: `{"action": ..., "parameters": {...}}`. -/
structure Action where
  action : String
  parameters : Params
deriving DecidableEq

/-! ## Intent detectors (`core/query_router.py`)

Each Python detector receives the raw query and lower-cases it itself. The
detectors that consult the user profile receive the session profile
snapshot directly (the Python side resolves `user_id` to that snapshot via
`_get_cached_profile`; `load_profile` catches its own I/O errors). -/

/-- `r'\bp/e\s+(?:ratio\s+)?of\b'` -/
def patPESlashOf : List RE :=
  [RE.atom .wb] ++ atomsOf (litsOf "p/e") ++
    [RE.atom .ws, RE.opt (litsOf "ratio" ++ [Atom.ws])] ++
    atomsOf (litsOf "of") ++ [RE.atom .wb]

/-- `r'\bpe\s+(?:ratio\s+)?of\b'` -/
def patPEOf : List RE :=
  [RE.atom .wb] ++ atomsOf (litsOf "pe") ++
    [RE.atom .ws, RE.opt (litsOf "ratio" ++ [Atom.ws])] ++
    atomsOf (litsOf "of") ++ [RE.atom .wb]

/-- `r'\bp\s+e\s+(?:ratio\s+)?of\b'` -/
def patPSpaceEOf : List RE :=
  [RE.atom .wb, RE.atom (.lit 'p'), RE.atom .ws, RE.atom (.lit 'e'),
    RE.atom .ws, RE.opt (litsOf "ratio" ++ [Atom.ws])] ++
    atomsOf (litsOf "of") ++ [RE.atom .wb]

/-- `r'\bdividend\s+yield\s+of\b'` -/
def patDivYieldOf : List RE :=
  [RE.atom .wb] ++ atomsOf (litsOf "dividend") ++ [RE.atom .ws] ++
    atomsOf (litsOf "yield") ++ [RE.atom .ws] ++
    atomsOf (litsOf "of") ++ [RE.atom .wb]

/-- `r'\byield\s+of\b'` -/
def patYieldOf : List RE :=
  [RE.atom .wb] ++ atomsOf (litsOf "yield") ++ [RE.atom .ws] ++
    atomsOf (litsOf "of") ++ [RE.atom .wb]

/-- `r'\bp/e\s+ratio\b'` -/
def patPESlashRatioW : List RE :=
  [RE.atom .wb] ++ atomsOf (litsOf "p/e") ++ [RE.atom .ws] ++
    atomsOf (litsOf "ratio") ++ [RE.atom .wb]

/-- `r'\bpe\s+ratio\b'` -/
def patPERatioW : List RE :=
  [RE.atom .wb] ++ atomsOf (litsOf "pe") ++ [RE.atom .ws] ++
    atomsOf (litsOf "ratio") ++ [RE.atom .wb]

/-- `r'\bdividend\s+yield\b'` -/
def patDivYieldW : List RE :=
  [RE.atom .wb] ++ atomsOf (litsOf "dividend") ++ [RE.atom .ws] ++
    atomsOf (litsOf "yield") ++ [RE.atom .wb]

/-- The `metric_patterns` list of `_detect_stock_metric`, in source order. -/
def metric_patterns : List (List RE) :=
  [patPESlashOf, patPEOf, patPSpaceEOf, patDivYieldOf, patYieldOf,
   patPESlashRatioW, patPERatioW, patDivYieldW]

/-- `any(re.search(pattern, q) for pattern in metric_patterns)`. -/
def metricHit (q : List Char) : Bool :=
  metric_patterns.any (fun p => reSearch p q)

/-- The metric detector's mutual-fund exclusion:
`any(ex in q for ex in ["mutual fund", "fund", "best", "top"])`. -/
def metricExcluded (q : List Char) : Bool :=
  ["mutual fund", "fund", "best", "top"].any (fun ex => pyInL ex q)

/-- `QueryRouter._detect_stock_metric`. -/
def detect_stock_metric (query : String) : Option Action :=
  let q := lowerL query.data
  if metricHit q then
    if !(metricExcluded q) then
      some ⟨"get_stock_metric", { query := some query }⟩
    else none
  else none

/-- The stock-price keyword list of `_detect_stock_price`. -/
def stock_keywords : List String :=
  ["stock", "price", "share", "trading", "quote", "market cap"]

/-- The exclusion list of `_detect_stock_price`. -/
def stock_price_exclusions : List String :=
  ["mutual fund", "nav", "sip", "emi", "portfolio",
   "best", "top", "etf", "bees", "fund", "p/e", "pe ratio", "dividend yield"]

/-- `QueryRouter._detect_stock_price`. -/
def detect_stock_price (query : String) : Option Action :=
  let q := lowerL query.data
  if stock_keywords.any (fun kw => pyInL kw q) then
    if !(stock_price_exclusions.any (fun ex => pyInL ex q)) then
      some ⟨"get_stock_price", { query := some query }⟩
    else none
  else none

/-- `QueryRouter._detect_etf`. -/
def detect_etf (query : String) : Option Action :=
  let q := lowerL query.data
  if pyInL "etf" q || pyInL "bees" q || pyInL "index fund" q then
    some ⟨"get_etf_price", { query := some query }⟩
  else none

/-- `QueryRouter._detect_mf_nav`. -/
def detect_mf_nav (query : String) : Option Action :=
  let q := lowerL query.data
  if pyInL "nav" q || (pyInL "mutual fund" q && pyInL "price" q) then
    if !(["best", "top", "good", "recommend"].any (fun cat => pyInL cat q)) then
      some ⟨"search_mutual_fund", { query := some query }⟩
    else none
  else none

/-- The category keyword list of `_detect_fund_category`. -/
def category_keywords : List String := ["best", "top", "good", "show", "recommend"]

/-- The fund-type list of `_detect_fund_category`. -/
def fund_types : List String :=
  ["large cap", "mid cap", "small cap", "elss", "equity",
   "debt", "hybrid", "mutual fund", "balanced"]

/-- `QueryRouter._detect_fund_category` (the Python code initializes
`category = "equity"` and overrides through an `elif` chain; the chain is
rendered with `"equity"` as the final fallback). -/
def detect_fund_category (query : String) : Option Action :=
  let q := lowerL query.data
  if category_keywords.any (fun cat => pyInL cat q) &&
      fund_types.any (fun typ => pyInL typ q) then
    let category :=
      if pyInL "large cap" q || pyInL "largecap" q then "large cap"
      else if pyInL "mid cap" q || pyInL "midcap" q then "mid cap"
      else if pyInL "small cap" q || pyInL "smallcap" q then "small cap"
      else if pyInL "elss" q || pyInL "tax saver" q then "elss"
      else if pyInL "debt" q || pyInL "bond" q then "debt"
      else if pyInL "hybrid" q || pyInL "balanced" q then "hybrid"
      else "equity"
    some ⟨"get_top_funds",
      { category := some category, limit := some MF_TOP_FUNDS_LIMIT }⟩
  else none

/-- The amount-resolution chain of `_detect_sip`: the `k`-pattern first,
then a plain 3-to-9-digit number, then 20% of the profile's monthly income
(when numeric and positive), then the hard fallback 5000. -/
def sipResolveAmount (q : List Char) (profile : Profile) : ℕ :=
  match searchNumThen 'k' true q with
  | some v => v.scaleFloor 1000
  | none =>
    match searchPlainInt q with
    | some n => n
    | none =>
      match profile.monthly_income with
      | some inc => if 0 < inc then (⌊inc * 0.20⌋).toNat else 5000
      | none => 5000

/-- `QueryRouter._detect_sip`. -/
def detect_sip (query : String) (profile : Profile) : Option Action :=
  let q := lowerL query.data
  if pyInL "sip" q then
    let amount := sipResolveAmount q profile
    if ¬(SIP_MIN_AMOUNT ≤ amount ∧ amount ≤ SIP_MAX_AMOUNT) then none
    else
      let years := match searchYears ["year", "years", "yrs", "y"] q with
        | some n => n
        | none => 10
      if ¬(SIP_MIN_YEARS ≤ years ∧ years ≤ SIP_MAX_YEARS) then none
      else some ⟨"calculate_sip",
        { monthly_sip := some amount, years := some years,
          expected_return := some DEFAULT_SIP_RETURN }⟩
  else none

/-- The unit alternation of the EMI / portfolio amount pattern, in source
order. -/
def emi_units : List String := ["lakh", "lakhs", "crore", "cr", "k"]

/-- `QueryRouter._detect_emi`. -/
def detect_emi (query : String) : Option Action :=
  let q := lowerL query.data
  if pyInL "emi" q || pyInL "loan" q then
    match searchNumUnit emi_units q with
    | some (v, unit) =>
      let amt := resolveAmt v unit
      if ¬(EMI_MIN_LOAN ≤ amt ∧ amt ≤ EMI_MAX_LOAN) then none
      else
        let interest := match searchNumThen '%' false q with
          | some d => d
          | none => DEFAULT_EMI_INTEREST
        if !(interest.geNat EMI_MIN_INTEREST && interest.leNat EMI_MAX_INTEREST) then none
        else
          let tenure := match searchYears ["year", "years", "yrs"] q with
            | some n => n
            | none => 20
          if ¬(EMI_MIN_TENURE ≤ tenure ∧ tenure ≤ EMI_MAX_TENURE) then none
          else some ⟨"calculate_emi",
            { loan_amount := some amt, interest_rate := some interest,
              tenure_years := some tenure }⟩
    | none => none
  else none

/-- `QueryRouter._detect_retirement`. -/
def detect_retirement (query : String) (profile : Profile) : Option Action :=
  let q := lowerL query.data
  if pyInL "retirement" q || pyInL "corpus" q || pyInL "retire" q then
    let current_age : ℤ := match searchKwNum ["age", "i am", "i'm"] q with
      | some n => (n : ℤ)
      | none => profile.age.getD 30
    if ¬(MIN_AGE ≤ current_age ∧ current_age ≤ MAX_AGE) then none
    else
      let retirement_age : ℤ := match searchRetireAge q with
        | some n => (n : ℤ)
        | none => 60
      if ¬(MIN_RETIREMENT_AGE ≤ retirement_age ∧ retirement_age ≤ MAX_RETIREMENT_AGE) then none
      else if retirement_age ≤ current_age then none
      else
        let monthly_expense : ℤ :=
          match searchKwNumUnit ["expense", "spend", "need"]
              ["k", "lakh", "lakhs", "crore", "cr"] q with
          | some (v, u) => (resolveAmt v u : ℤ)
          | none =>
            match profile.monthly_income with
            | some inc => if 0 < inc then ⌊inc * 0.7⌋ else 50000
            | none => 50000
        if ¬(MIN_MONTHLY_EXPENSE ≤ monthly_expense ∧ monthly_expense ≤ MAX_MONTHLY_EXPENSE) then none
        else some ⟨"calculate_retirement",
          { current_age := some current_age, retirement_age := some retirement_age,
            monthly_expense := some monthly_expense }⟩
  else none

/-- `QueryRouter._detect_portfolio`. -/
def detect_portfolio_rec (query : String) (profile : Profile) : Option Action :=
  let q := lowerL query.data
  if pyInL "portfolio" q ||
      (pyInL "invest" q &&
        ["i have", "create", "suggest", "build"].any (fun kw => pyInL kw q)) then
    let amt := match searchNumUnit emi_units q with
      | some (v, u) => resolveAmt v u
      | none => 100000
    if ¬(MIN_INVESTMENT ≤ amt ∧ amt ≤ MAX_INVESTMENT) then none
    else some ⟨"get_portfolio_recommendation",
      { age := some (profile.age.getD 30),
        risk_appetite := some (profile.risk_appetite.getD "moderate"),
        investment_amount := some amt }⟩
  else none

/-- `QueryRouter._detect_action_with_priority`: the fixed-order
short-circuit chain over the nine detectors. -/
def detect_action_with_priority (query : String) (profile : Profile) : Option Action :=
  match detect_stock_metric query with
  | some r => some r
  | none =>
  match detect_stock_price query with
  | some r => some r
  | none =>
  match detect_etf query with
  | some r => some r
  | none =>
  match detect_mf_nav query with
  | some r => some r
  | none =>
  match detect_fund_category query with
  | some r => some r
  | none =>
  match detect_sip query profile with
  | some r => some r
  | none =>
  match detect_emi query with
  | some r => some r
  | none =>
  match detect_retirement query profile with
  | some r => some r
  | none =>
  match detect_portfolio_rec query profile with
  | some r => some r
  | none => none

/-! ## Result type and rounding (`agents/calculator.py`)

Python float arithmetic is idealized as exact field arithmetic; `round`
is Python's round-half-to-even. The interpolated numeric values inside the
validation error-message texts are not reproduced (no behaviour depends on
them); the fixed message prefixes are kept. The `calculation_breakdown`
sub-dictionaries, which only restate payload fields already modelled, are
omitted. -/

/-- Outcome of a Python function: a success dictionary, a returned
`{"error": msg}` dictionary, or a raised uncaught exception. -/
inductive PyResult (α : Type) where
  | ok : α → PyResult α
  | errDict : String → PyResult α
  | exn : PyResult α
deriving DecidableEq

/-- Python `round(x)`: round half to even. -/
def pyRound {α : Type*} [LinearOrderedField α] [FloorRing α] (x : α) : ℤ :=
  if Int.fract x < 1 / 2 then ⌊x⌋
  else if 1 / 2 < Int.fract x then ⌊x⌋ + 1
  else if Even ⌊x⌋ then ⌊x⌋ else ⌊x⌋ + 1

/-- Python `round(x, d)` as a value: `round(x * 10^d) / 10^d`. -/
def pyRoundTo {α : Type*} [LinearOrderedField α] [FloorRing α] (d : ℕ) (x : α) : α :=
  ((pyRound ((10 : α) ^ d * x) : ℤ) : α) / (10 : α) ^ d

/-! ## SIP calculator -/

/-- One entry of the SIP `yearly_breakdown`. -/
structure SipYearRow where
  year : ℕ
  invested : ℤ
  value : ℤ
  gains : ℤ
deriving DecidableEq

/-- The annuity-due maturity value
`monthly_sip * (((1 + i)^m - 1) / i) * (1 + i)` of the source. -/
def sipMaturityVal (monthly_sip monthly_rate : ℚ) (m : ℕ) : ℚ :=
  monthly_sip * (((1 + monthly_rate) ^ m - 1) / monthly_rate) * (1 + monthly_rate)

/-- The success payload of `FinancialCalculator.sip_returns`. -/
structure SipPayload where
  monthly_sip : ℚ
  years : ℤ
  expected_return : ℚ
  total_invested : ℤ
  maturity_amount : ℤ
  gains : ℤ
  returns_percentage : ℚ
  yearly_breakdown : List SipYearRow
  milestone_5 : Option SipYearRow
  milestone_10 : Option SipYearRow
  milestone_15 : Option SipYearRow
  milestone_20 : Option SipYearRow
deriving DecidableEq

/-- `FinancialCalculator.sip_returns`. Validation order follows the
source; when it passes and `expected_return = 0` the source raises
`ZeroDivisionError` at the maturity formula (`0.0 / 0.0`), rendered as
`.exn`. -/
def sip_returns (monthly_sip : ℚ) (years : ℤ) (expected_return : ℚ) :
    PyResult SipPayload :=
  if monthly_sip ≤ 0 then .errDict "Monthly SIP must be positive"
  else if years ≤ 0 then .errDict "Investment years must be positive"
  else if ¬(0 ≤ expected_return ∧ expected_return ≤ 1) then
    .errDict "Expected return must be between 0 and 1 (as decimal)"
  else if (50 : ℤ) < years then
    .errDict "Investment period cannot exceed 50 years"
  else
    let months : ℕ := years.toNat * 12
    let monthly_rate := expected_return / 12
    if monthly_rate = 0 then .exn
    else
      let maturity_value := sipMaturityVal monthly_sip monthly_rate months
      let total_invested := monthly_sip * months
      let gains := maturity_value - total_invested
      let rows := (List.range years.toNat).map (fun k =>
        let m := (k + 1) * 12
        let value := sipMaturityVal monthly_sip monthly_rate m
        let invested := monthly_sip * m
        (⟨k + 1, pyRound invested, pyRound value, pyRound (value - invested)⟩ : SipYearRow))
      .ok
        { monthly_sip := monthly_sip, years := years,
          expected_return := expected_return,
          total_invested := pyRound total_invested,
          maturity_amount := pyRound maturity_value,
          gains := pyRound gains,
          returns_percentage := pyRoundTo 2 ((gains / total_invested) * 100),
          yearly_breakdown := rows,
          milestone_5 := if 5 ≤ years then rows.get? 4 else none,
          milestone_10 := if 10 ≤ years then rows.get? 9 else none,
          milestone_15 := if 15 ≤ years then rows.get? 14 else none,
          milestone_20 := if 20 ≤ years then rows.get? 19 else none }

/-! ## EMI calculator -/

/-- One entry of the EMI `yearly_breakdown`. -/
structure EmiYearRow where
  year : ℕ
  principal_paid : ℤ
  interest_paid : ℤ
  total_paid : ℤ
  remaining_balance : ℤ
deriving DecidableEq

/-- One month of the amortization loop: splits the EMI into interest and
principal while a positive balance remains. State: (year principal so far,
year interest so far, remaining principal). -/
def emiMonthStep (monthly_rate emi : ℚ) (st : ℚ × ℚ × ℚ) : ℚ × ℚ × ℚ :=
  match st with
  | (yp, yi, rp) =>
    if 0 < rp then
      let mi := rp * monthly_rate
      let mp := emi - mi
      (yp + mp, yi + mi, rp - mp)
    else (yp, yi, rp)

/-- Twelve months of the amortization loop starting from balance `rp`. -/
def emiYearTotals (monthly_rate emi rp : ℚ) : ℚ × ℚ × ℚ :=
  (List.range 12).foldl (fun st _ => emiMonthStep monthly_rate emi st) (0, 0, rp)

/-- The year rows of the amortization schedule: `count` remaining years,
`y` the current year number, `rp` the running balance. -/
def emiRows (monthly_rate emi : ℚ) : ℕ → ℕ → ℚ → List EmiYearRow
  | 0, _, _ => []
  | n + 1, y, rp =>
    match emiYearTotals monthly_rate emi rp with
    | (yp, yi, rp') =>
      (⟨y, pyRound yp, pyRound yi, pyRound (yp + yi), pyRound (max 0 rp')⟩ : EmiYearRow) ::
        emiRows monthly_rate emi n (y + 1) rp'

/-- The success payload of `FinancialCalculator.emi_calculator`. -/
structure EmiPayload where
  loan_amount : ℚ
  interest_rate : ℚ
  tenure_years : ℤ
  tenure_months : ℕ
  monthly_emi : ℤ
  total_payment : ℤ
  total_interest : ℤ
  principal_percentage : ℚ
  interest_percentage : ℚ
  yearly_breakdown : List EmiYearRow
  milestone_1 : Option EmiYearRow
  milestone_5 : Option EmiYearRow
  milestone_10 : Option EmiYearRow
  milestone_15 : Option EmiYearRow
  milestone_20 : Option EmiYearRow
  first_year_principal : ℤ
  first_year_interest : ℤ
  last_year_principal : ℤ
  last_year_interest : ℤ
deriving DecidableEq

/-- `FinancialCalculator.emi_calculator`. -/
def emi_calculator (loan_amount interest_rate : ℚ) (tenure_years : ℤ) :
    PyResult EmiPayload :=
  if loan_amount ≤ 0 then .errDict "Loan amount must be positive"
  else if interest_rate ≤ 0 then .errDict "Interest rate must be positive"
  else if tenure_years ≤ 0 then .errDict "Tenure must be positive"
  else if (EMI_MAX_INTEREST : ℚ) < interest_rate then
    .errDict "Interest rate cannot exceed 30%"
  else if (EMI_MAX_TENURE : ℤ) < tenure_years then
    .errDict "Tenure cannot exceed 30 years"
  else if (EMI_MAX_LOAN : ℚ) < loan_amount then
    .errDict "Loan amount cannot exceed the configured ceiling"
  else
    let monthly_rate := interest_rate / 12 / 100
    let months : ℕ := tenure_years.toNat * 12
    let emi :=
      if monthly_rate = 0 then loan_amount / months
      else loan_amount * monthly_rate * ((1 + monthly_rate) ^ months) /
        (((1 + monthly_rate) ^ months) - 1)
    let total_payment := emi * months
    let total_interest := total_payment - loan_amount
    let rows := emiRows monthly_rate emi tenure_years.toNat 1 loan_amount
    .ok
      { loan_amount := loan_amount, interest_rate := interest_rate,
        tenure_years := tenure_years, tenure_months := months,
        monthly_emi := pyRound emi,
        total_payment := pyRound total_payment,
        total_interest := pyRound total_interest,
        principal_percentage := pyRoundTo 2 ((loan_amount / total_payment) * 100),
        interest_percentage := pyRoundTo 2 ((total_interest / total_payment) * 100),
        yearly_breakdown := rows,
        milestone_1 := if 1 ≤ tenure_years then rows.get? 0 else none,
        milestone_5 := if 5 ≤ tenure_years then rows.get? 4 else none,
        milestone_10 := if 10 ≤ tenure_years then rows.get? 9 else none,
        milestone_15 := if 15 ≤ tenure_years then rows.get? 14 else none,
        milestone_20 := if 20 ≤ tenure_years then rows.get? 19 else none,
        first_year_principal := ((rows.head?).map (fun r => r.principal_paid)).getD 0,
        first_year_interest := ((rows.head?).map (fun r => r.interest_paid)).getD 0,
        last_year_principal := ((rows.getLast?).map (fun r => r.principal_paid)).getD 0,
        last_year_interest := ((rows.getLast?).map (fun r => r.interest_paid)).getD 0 }

/-! ## Retirement-corpus calculator

The one non-integer exponent of the source,
`(1 + post_ret_return) ** (post_retirement_years / 2)` (Python float
division), forces the real-number model here. -/

/-- The success payload of `FinancialCalculator.retirement_corpus`. -/
structure RetPayload where
  current_age : ℤ
  retirement_age : ℤ
  years_to_retirement : ℤ
  current_monthly_expense : ℚ
  future_monthly_expense : ℤ
  corpus_needed : ℤ
  monthly_sip_required : ℤ
  total_sip_investment : ℤ
  inflation_rate : ℚ
  assumed_sip_return : ℚ
  assumed_post_retirement_return : ℚ
  post_retirement_years : ℤ
deriving DecidableEq

/-- The corpus value before rounding: future annual expense at retirement
times the post-retirement year count, discounted by the source's mid-point
factor `(1 + post_ret_return) ^ (post_retirement_years / 2)`. -/
noncomputable def retCorpusVal (current_age retirement_age : ℤ)
    (monthly_expense inflation : ℚ) (post_retirement_years : ℤ)
    (post_ret_return : ℚ) : ℝ :=
  let years_to_retirement := retirement_age - current_age
  let inflation_multiplier : ℝ := (1 + (inflation : ℝ)) ^ years_to_retirement.toNat
  let future_monthly_expense := (monthly_expense : ℝ) * inflation_multiplier
  let annual_expense_at_retirement := future_monthly_expense * 12
  let total_for_post_retirement :=
    annual_expense_at_retirement * (post_retirement_years : ℝ)
  let discount_factor :=
    (1 + (post_ret_return : ℝ)) ^ ((post_retirement_years : ℝ) / 2)
  total_for_post_retirement / discount_factor

/-- `FinancialCalculator.retirement_corpus` (all seven parameters explicit;
the Python `None` defaults are resolved by the caller from `config.py`). -/
noncomputable def retirement_corpus (current_age retirement_age : ℤ)
    (monthly_expense inflation : ℚ) (post_retirement_years : ℤ)
    (sip_return post_ret_return : ℚ) : PyResult RetPayload :=
  if ¬(0 < current_age ∧ current_age < 120) then
    .errDict "Current age must be between 0 and 120"
  else if ¬(0 < retirement_age ∧ retirement_age < 120) then
    .errDict "Retirement age must be between 0 and 120"
  else if monthly_expense ≤ 0 then .errDict "Monthly expense must be positive"
  else if ¬(0 ≤ inflation ∧ inflation ≤ 1) then
    .errDict "Inflation rate must be between 0 and 1 (as decimal)"
  else if ¬(0 ≤ sip_return ∧ sip_return ≤ 1) then
    .errDict "SIP return rate must be between 0 and 1 (as decimal)"
  else if ¬(0 ≤ post_ret_return ∧ post_ret_return ≤ 1) then
    .errDict "Post-retirement return rate must be between 0 and 1 (as decimal)"
  else if retirement_age ≤ current_age then
    .errDict "Retirement age must be greater than current age"
  else if 50 < retirement_age - current_age then
    .errDict "Years to retirement cannot exceed 50"
  else if (50 : ℤ) < post_retirement_years then
    .errDict "Post-retirement years cannot exceed 50"
  else
    let years_to_retirement := retirement_age - current_age
    let inflation_multiplier : ℝ := (1 + (inflation : ℝ)) ^ years_to_retirement.toNat
    let future_monthly_expense : ℝ := (monthly_expense : ℝ) * inflation_multiplier
    let corpus_needed : ℝ := retCorpusVal current_age retirement_age
      monthly_expense inflation post_retirement_years post_ret_return
    let months_to_retirement : ℕ := years_to_retirement.toNat * 12
    let monthly_sip_rate : ℝ := (sip_return : ℝ) / 12
    let monthly_sip_required : ℝ :=
      if monthly_sip_rate = 0 then corpus_needed / (months_to_retirement : ℝ)
      else corpus_needed * monthly_sip_rate /
        ((((1 + monthly_sip_rate) ^ months_to_retirement) - 1) * (1 + monthly_sip_rate))
    let total_sip_investment := monthly_sip_required * (months_to_retirement : ℝ)
    .ok
      { current_age := current_age, retirement_age := retirement_age,
        years_to_retirement := years_to_retirement,
        current_monthly_expense := monthly_expense,
        future_monthly_expense := pyRound future_monthly_expense,
        corpus_needed := pyRound corpus_needed,
        monthly_sip_required := pyRound monthly_sip_required,
        total_sip_investment := pyRound total_sip_investment,
        inflation_rate := inflation, assumed_sip_return := sip_return,
        assumed_post_retirement_return := post_ret_return,
        post_retirement_years := post_retirement_years }

/-! ## Action executor and top-level handler (`core/query_router.py`)

The market-data, LLM, retriever and profile collaborators are outside the
routing core; they enter as an environment of functions. `Except String α`
models a collaborator call: `.error e` is a raised exception with message
`e`, which the router's failure boundaries catch as the source dictates. -/

/-- A market-data result dictionary, opaque except for the optional keys
the router's fallback summary inspects and a collaborator-returned
`error` key. -/
structure MarketVal where
  company : Option String := none
  price : Option ℚ := none
  change_percent : Option ℚ := none
  dividend_yield : Option ℚ := none
  pe_ratio : Option ℚ := none
  error : Option String := none
deriving DecidableEq

/-- The result dictionary an executed action produces: a calculator
payload, a market dictionary, an `{"error": msg}` dictionary, or the empty
dictionary (conversational responses). -/
inductive DataDict where
  | emptyD : DataDict
  | marketD : MarketVal → DataDict
  | sipD : SipPayload → DataDict
  | emiD : EmiPayload → DataDict
  | retD : RetPayload → DataDict
  | errD : String → DataDict
deriving DecidableEq

/-- The value of the `error` key of a result dictionary, when present. -/
def DataDict.errorVal : DataDict → Option String
  | .errD m => some m
  | .marketD v => v.error
  | _ => none

/-- An LLM response: a structured action proposal (the source requires the
`action` and `parameters` keys together) or free text. -/
structure LLMResp where
  action : Option Action := none
  content : Option String := none
deriving DecidableEq

/-- The collaborator environment of one request. -/
structure Env where
  profileOf : String → Profile
  get_stock_price : String → Except String MarketVal
  get_stock_metric : String → Except String MarketVal
  get_etf_price : String → Except String MarketVal
  search_fund_dynamic : String → Except String MarketVal
  get_top_funds_by_category : String → ℕ → Except String MarketVal
  get_personalized_portfolio : ℤ → String → ℕ → Except String MarketVal
  summarize_data : DataDict → String → Except String String
  get_response : String → String → String → Except String LLMResp
  get_context : String → Except String String
  get_context_summary : String → Except String String

/-- `str(KeyError(key))` surfaced through the executor's failure boundary. -/
def keyErrMsg (action key : String) : String :=
  "Error executing " ++ action ++ ": '" ++ key ++ "'"

/-- The executor's failure boundary message for a raised exception. -/
def execErrMsg (action msg : String) : String :=
  "Error executing " ++ action ++ ": " ++ msg

/-- A market-collaborator call observed through the executor's failure
boundary. -/
def runMarket (action : String) (r : Except String MarketVal) : DataDict :=
  match r with
  | .ok v => .marketD v
  | .error e => .errD (execErrMsg action e)

/-- `QueryRouter._execute_action`. -/
noncomputable def execute_action (env : Env) (action : String) (p : Params) : DataDict :=
  if action = "get_stock_price" then
    match p.query with
    | some q => runMarket action (env.get_stock_price q)
    | none => .errD (keyErrMsg action "query")
  else if action = "get_stock_metric" then
    match p.query with
    | some q => runMarket action (env.get_stock_metric q)
    | none => .errD (keyErrMsg action "query")
  else if action = "get_etf_price" then
    match p.query with
    | some q => runMarket action (env.get_etf_price q)
    | none => .errD (keyErrMsg action "query")
  else if action = "search_mutual_fund" then
    match p.query with
    | some q => runMarket action (env.search_fund_dynamic q)
    | none => .errD (keyErrMsg action "query")
  else if action = "get_top_funds" then
    match p.category with
    | some c =>
      runMarket action (env.get_top_funds_by_category c (p.limit.getD MF_TOP_FUNDS_LIMIT))
    | none => .errD (keyErrMsg action "category")
  else if action = "calculate_sip" then
    match p.monthly_sip, p.years with
    | some a, some y =>
      (match sip_returns (a : ℚ) (y : ℤ)
          (match p.expected_return with
           | some r => r
           | none => DEFAULT_SIP_RETURN) with
       | .ok s => .sipD s
       | .errDict m => .errD m
       | .exn => .errD (execErrMsg action "float division by zero"))
    | none, _ => .errD (keyErrMsg action "monthly_sip")
    | some _, none => .errD (keyErrMsg action "years")
  else if action = "calculate_emi" then
    match p.loan_amount, p.tenure_years with
    | some l, some t =>
      (match emi_calculator (l : ℚ)
          (match p.interest_rate with
           | some d => d.toQ
           | none => DEFAULT_EMI_INTEREST.toQ) (t : ℤ) with
       | .ok e => .emiD e
       | .errDict m => .errD m
       | .exn => .errD (execErrMsg action "exception"))
    | none, _ => .errD (keyErrMsg action "loan_amount")
    | some _, none => .errD (keyErrMsg action "tenure_years")
  else if action = "calculate_retirement" then
    match p.current_age, p.retirement_age, p.monthly_expense with
    | some ca, some ra, some e =>
      (match retirement_corpus ca ra (e : ℚ) DEFAULT_INFLATION
          (DEFAULT_POST_RET_YEARS : ℤ) DEFAULT_SIP_RETURN DEFAULT_POST_RET_RETURN with
       | .ok r => .retD r
       | .errDict m => .errD m
       | .exn => .errD (execErrMsg action "exception"))
    | none, _, _ => .errD (keyErrMsg action "current_age")
    | some _, none, _ => .errD (keyErrMsg action "retirement_age")
    | some _, some _, none => .errD (keyErrMsg action "monthly_expense")
  else if action = "get_portfolio_recommendation" then
    match p.age, p.risk_appetite, p.investment_amount with
    | some a, some r, some amt =>
      runMarket action (env.get_personalized_portfolio a r amt)
    | none, _, _ => .errD (keyErrMsg action "age")
    | some _, none, _ => .errD (keyErrMsg action "risk_appetite")
    | some _, some _, none => .errD (keyErrMsg action "investment_amount")
  else .errD ("Unknown action: " ++ action)

/-- `QueryRouter._needs_knowledge_retrieval`. -/
def knowledge_keywords : List String :=
  ["what is", "explain", "difference", "how does", "why",
   "tell me about", "define", "meaning"]

/-- Whether the query triggers a knowledge-base lookup. -/
def needs_knowledge_retrieval (query : String) : Bool :=
  knowledge_keywords.any (fun kw => pyInL kw (lowerL query.data))

/-- `QueryRouter._fallback_summary` (numeric string rendering abstracted by
`toString`; the key checks and their order follow the source, which are
disjoint across the dictionary shapes). The `query` argument is unused in
the source as well. -/
def fallback_summary (data : DataDict) (_query : String) : String :=
  match data.errorVal with
  | some e => "Sorry, " ++ e
  | none =>
    match data with
    | .marketD v =>
      (match v.company, v.price with
       | some c, some p =>
         c ++ " is trading at ₹" ++ toString p ++ ", " ++
           toString (v.change_percent.getD 0) ++ "% today."
       | _, _ =>
         match v.dividend_yield with
         | some d => "Dividend yield: " ++ toString d ++ "%"
         | none =>
           match v.pe_ratio with
           | some r => "P/E ratio: " ++ toString r
           | none => "Here's the data you requested.")
    | .emiD e => "Monthly EMI: ₹" ++ toString e.monthly_emi
    | .sipD s => "SIP maturity value: ₹" ++ toString s.maturity_amount
    | _ => "Here's the data you requested."

/-- A caller-visible response: the `type` key (`rtype` here), the rendered
text, and the attached data dictionary. -/
structure Response where
  rtype : String
  response : String
  data : DataDict
deriving DecidableEq

/-- `QueryRouter.handle_query`: deterministic detection first, then the
LLM fallback path. The inner failure boundaries (summary fallback, LLM
apology) and the outer catch-all (`"An error occurred: ..."`) follow the
source; the summary call on the LLM-proposed-action path is guarded only
by the outer boundary, as in the source. -/
noncomputable def handle_query (env : Env) (query : String) (user_id : String) : Response :=
  match detect_action_with_priority query (env.profileOf user_id) with
  | some detected =>
    let result := execute_action env detected.action detected.parameters
    let summary :=
      match env.summarize_data result query with
      | .ok s => s
      | .error _ => fallback_summary result query
    ⟨"finance_response", summary, result⟩
  | none =>
    match env.get_context_summary user_id with
    | .error e => ⟨"error", "An error occurred: " ++ e, .errD e⟩
    | .ok user_context =>
      match (if needs_knowledge_retrieval query then env.get_context query
             else Except.ok "" : Except String String) with
      | .error e => ⟨"error", "An error occurred: " ++ e, .errD e⟩
      | .ok rag_context =>
        match env.get_response query rag_context user_context with
        | .error e =>
          ⟨"error",
            "I'm having trouble processing your query. The AI service may be unavailable.",
            .errD e⟩
        | .ok llm_response =>
          match llm_response.action with
          | some act =>
            let result := execute_action env act.action act.parameters
            (match env.summarize_data result query with
             | .ok summary => ⟨"finance_response", summary, result⟩
             | .error e => ⟨"error", "An error occurred: " ++ e, .errD e⟩)
          | none =>
            ⟨"conversational",
              llm_response.content.getD "I'm not sure how to help with that.",
              .emptyD⟩

/-! ## Named sub-expressions used by the statements below -/

/-- The amount-extraction step shared verbatim by `_detect_emi` and
`_detect_portfolio`: the first numeric token of the lowered query with its
optional unit, resolved through the multiplier chain. -/
def extract_amount (query : String) : Option ℕ :=
  (searchNumUnit emi_units (lowerL query.data)).map (fun p => resolveAmt p.1 p.2)

/-- The nine action names `_execute_action` recognizes. -/
def known_actions : List String :=
  ["get_stock_price", "get_stock_metric", "get_etf_price", "search_mutual_fund",
   "get_top_funds", "calculate_sip", "calculate_emi", "calculate_retirement",
   "get_portfolio_recommendation"]

/-- An inert collaborator environment: every external call raises. -/
def stubEnv : Env :=
  ⟨fun _ => {}, fun _ => .error "down", fun _ => .error "down",
   fun _ => .error "down", fun _ => .error "down", fun _ _ => .error "down",
   fun _ _ _ => .error "down", fun _ _ => .error "down",
   fun _ _ _ => .error "down", fun _ => .error "down", fun _ => .error "down"⟩

/-- The exact total invested of `sip_returns`:
`monthly_sip * months` with `months = years * 12`. -/
def sipInvestedVal (monthly_sip : ℚ) (years : ℤ) : ℚ :=
  monthly_sip * ((years.toNat * 12 : ℕ) : ℚ)

/-- The exact pre-rounding `gains / total_invested * 100` of `sip_returns`. -/
def sipRatioExact (monthly_sip : ℚ) (years : ℤ) (expected_return : ℚ) : ℚ :=
  ((sipMaturityVal monthly_sip (expected_return / 12) (years.toNat * 12) -
      sipInvestedVal monthly_sip years) / sipInvestedVal monthly_sip years) * 100

/-! ## Theorems -/

/-- C8: the amount extraction used by the detectors takes the first numeric
token with an optional adjacent unit from {k, lakh, lakhs, crore, cr}
(case-insensitively, via lower-casing) and resolves it with multipliers
k = 1000, lakh = 100000, crore = 10000000, taking the raw number literally
when no unit is present: "5 lakh" resolves to 500000, "50000" to 50000,
"2cr" to 20000000, "10k" to 10000 (and the first-token rule picks 50 lakh
out of a longer query). -/
theorem C8_amount_examples :
    extract_amount "5 lakh" = some 500000 ∧
    extract_amount "50000" = some 50000 ∧
    extract_amount "2cr" = some 20000000 ∧
    extract_amount "10k" = some 10000 ∧
    extract_amount "2CR" = some 20000000 ∧
    extract_amount "EMI for 50 lakh loan at 8.5% for 20 years" = some 5000000 :=
  ⟨rfl, rfl, rfl, rfl, rfl, rfl⟩

/-- C6: for every action name that is not one of the nine recognized action
kinds, the executor returns the dictionary
`{"error": "Unknown action: <name>"}` (and, being total, does not raise). -/
theorem C6_unknown_action (env : Env) (name : String) (p : Params)
    (h : name ∉ known_actions) :
    execute_action env name p = .errD ("Unknown action: " ++ name) := by
  simp only [known_actions, List.mem_cons, List.not_mem_nil, or_false, not_or] at h
  obtain ⟨h1, h2, h3, h4, h5, h6, h7, h8, h9⟩ := h
  simp only [execute_action, if_neg h1, if_neg h2, if_neg h3, if_neg h4, if_neg h5,
    if_neg h6, if_neg h7, if_neg h8, if_neg h9]

/-- Witness for C6 at the concrete unknown action name "dance". -/
theorem C6_unknown_action_witness :
    "dance" ∉ known_actions ∧
    execute_action stubEnv "dance" Params.empty =
      .errD ("Unknown action: " ++ "dance") :=
  ⟨by decide, C6_unknown_action stubEnv "dance" Params.empty (by decide)⟩

/-- C3 counterexample: a SIP query whose resolved monthly amount is exactly
1000000 is detected successfully (the configured maximum is inclusive),
refuting the claim that the amount 1000000 fails detection. -/
theorem C3_counterexample :
    detect_sip "sip of 1000000" {} =
      some ⟨"calculate_sip",
        { monthly_sip := some 1000000, years := some 10,
          expected_return := some DEFAULT_SIP_RETURN }⟩ := rfl

/-- C3 (amended): a SIP-detector invocation whose resolved monthly amount
is 99 (below the configured minimum 100) fails detection; a resolved
amount of exactly 1000000 passes detection, because the configured maximum
bound is inclusive. -/
theorem C3_sip_bounds :
    (∀ (query : String) (profile : Profile),
        sipResolveAmount (lowerL query.data) profile = 99 →
        detect_sip query profile = none) ∧
    (∀ profile : Profile,
        detect_sip "sip of 1000000" profile =
          some ⟨"calculate_sip",
            { monthly_sip := some 1000000, years := some 10,
              expected_return := some DEFAULT_SIP_RETURN }⟩) := by
  constructor
  · intro query profile h
    simp only [detect_sip, h]
    norm_num [SIP_MIN_AMOUNT, SIP_MAX_AMOUNT]
  · have e1 : searchNumThen 'k' true (lowerL "sip of 1000000".data) = none := rfl
    have e2 : searchPlainInt (lowerL "sip of 1000000".data) = some 1000000 := rfl
    have e3 : searchYears ["year", "years", "yrs", "y"]
        (lowerL "sip of 1000000".data) = none := rfl
    have e4 : pyInL "sip" (lowerL "sip of 1000000".data) = true := rfl
    intro profile
    simp only [detect_sip, sipResolveAmount, e1, e2, e3, e4, if_true]
    norm_num [SIP_MIN_AMOUNT, SIP_MAX_AMOUNT, SIP_MIN_YEARS, SIP_MAX_YEARS]

/-- Witness for C3 at the concrete query "sip of 0.099k", whose amount
resolves to 99. -/
theorem C3_sip_bounds_witness :
    sipResolveAmount (lowerL "sip of 0.099k".data) {} = 99 ∧
    detect_sip "sip of 0.099k" {} = none :=
  ⟨rfl, C3_sip_bounds.1 "sip of 0.099k" {} rfl⟩

/-- C9: every action the SIP detector produces carries the configured
default expected return 0.12, whatever percentage the query text states. -/
theorem C9_sip_default_return (query : String) (profile : Profile) (a : Action)
    (h : detect_sip query profile = some a) :
    a.parameters.expected_return = some DEFAULT_SIP_RETURN ∧
    DEFAULT_SIP_RETURN = 12 / 100 := by
  refine ⟨?_, by norm_num [DEFAULT_SIP_RETURN]⟩
  simp only [detect_sip] at h
  split at h
  · split at h
    · exact absurd h (by simp)
    · split at h
      · exact absurd h (by simp)
      · injection h with h2
        subst h2
        rfl
  · exact absurd h (by simp)

/-- Witness for C9 at a query that states "15% returns": the detected
action still carries 0.12. -/
theorem C9_sip_default_return_witness :
    ∃ a : Action,
      detect_sip "sip of 10k for 5 years at 15% returns" {} = some a ∧
      a.parameters.expected_return = some DEFAULT_SIP_RETURN ∧
      DEFAULT_SIP_RETURN = 12 / 100 := by
  have h : detect_sip "sip of 10k for 5 years at 15% returns" {} =
      some ⟨"calculate_sip",
        { monthly_sip := some 10000, years := some 5,
          expected_return := some DEFAULT_SIP_RETURN }⟩ := rfl
  exact ⟨_, h, C9_sip_default_return _ _ _ h⟩

/-- C10: for every query containing "emi" or "loan", the EMI detector takes
the first numeric token as the loan amount regardless of context; if the
query has no digit, or that first number resolves outside
[50000, 100000000], the detector returns no match. -/
theorem C10_emi_first_number (query : String)
    (h : (pyInL "emi" (lowerL query.data) || pyInL "loan" (lowerL query.data)) = true) :
    (extract_amount query = none → detect_emi query = none) ∧
    (∀ z : ℕ, extract_amount query = some z →
      ¬(EMI_MIN_LOAN ≤ z ∧ z ≤ EMI_MAX_LOAN) → detect_emi query = none) ∧
    (∀ a : Action, detect_emi query = some a →
      ∃ z : ℕ, extract_amount query = some z ∧ a.parameters.loan_amount = some z) := by
  refine ⟨?_, ?_, ?_⟩
  · intro hn
    simp only [extract_amount, Option.map_eq_none'] at hn
    simp only [detect_emi, hn]
    split <;> rfl
  · intro z hz hrange
    simp only [extract_amount, Option.map_eq_some'] at hz
    obtain ⟨⟨v, u⟩, hs, hv⟩ := hz
    simp only [detect_emi, hs, h, if_true]
    rw [hv, if_pos hrange]
  · intro a ha
    rcases hs : searchNumUnit emi_units (lowerL query.data) with _ | ⟨v, u⟩
    · rw [detect_emi, hs] at ha
      split at ha <;> exact absurd ha (by simp)
    · refine ⟨resolveAmt v u, by simp [extract_amount, hs], ?_⟩
      simp only [detect_emi, hs, h, if_true] at ha
      split at ha
      · exact absurd ha (by simp)
      · split at ha
        · exact absurd ha (by simp)
        · split at ha
          · exact absurd ha (by simp)
          · injection ha with h2
            subst h2
            rfl

/-- Witness for C10 at the concrete query "loan at 8.5% interest", whose
first number 8.5 resolves to 8 and falls below the minimum. -/
theorem C10_emi_first_number_witness :
    (pyInL "emi" (lowerL "loan at 8.5% interest".data) ||
      pyInL "loan" (lowerL "loan at 8.5% interest".data)) = true ∧
    extract_amount "loan at 8.5% interest" = some 8 ∧
    detect_emi "loan at 8.5% interest" = none :=
  ⟨rfl, rfl, (C10_emi_first_number "loan at 8.5% interest" rfl).2.1 8 rfl (by decide)⟩

/-- C5: for every environment, query and user id, the response type of
`handle_query` is one of exactly "finance_response", "conversational" and
"error" (and `handle_query`, being a total function over collaborator
outcomes that include raised exceptions, propagates no exception). -/
theorem C5_response_type (env : Env) (query user_id : String) :
    (handle_query env query user_id).rtype = "finance_response" ∨
    (handle_query env query user_id).rtype = "conversational" ∨
    (handle_query env query user_id).rtype = "error" := by
  unfold handle_query
  rcases detect_action_with_priority query (env.profileOf user_id) with _ | d
  · dsimp only
    rcases env.get_context_summary user_id with e | uc
    · simp
    · dsimp only
      rcases (if needs_knowledge_retrieval query then env.get_context query
          else Except.ok "" : Except String String) with e | rc
      · simp
      · dsimp only
        rcases env.get_response query rc uc with e | lr
        · simp
        · dsimp only
          rcases lr.action with _ | act
          · simp
          · dsimp only
            rcases env.summarize_data
                (execute_action env act.action act.parameters) query with e | s
            · simp
            · simp
  · simp

/-- The stock-metric detector only ever returns the metric action. -/
lemma detect_stock_metric_action (query : String) (a : Action)
    (h : detect_stock_metric query = some a) : a.action = "get_stock_metric" := by
  simp only [detect_stock_metric] at h
  repeat' split at h
  all_goals first
    | exact Option.noConfusion h
    | (injection h with h2; subst h2; rfl)

/-- The ETF detector only ever returns the ETF action. -/
lemma detect_etf_action (query : String) (a : Action)
    (h : detect_etf query = some a) : a.action = "get_etf_price" := by
  simp only [detect_etf] at h
  repeat' split at h
  all_goals first
    | exact Option.noConfusion h
    | (injection h with h2; subst h2; rfl)

/-- The NAV detector only ever returns the fund-search action. -/
lemma detect_mf_nav_action (query : String) (a : Action)
    (h : detect_mf_nav query = some a) : a.action = "search_mutual_fund" := by
  simp only [detect_mf_nav] at h
  repeat' split at h
  all_goals first
    | exact Option.noConfusion h
    | (injection h with h2; subst h2; rfl)

/-- The fund-category detector only ever returns the top-funds action. -/
lemma detect_fund_category_action (query : String) (a : Action)
    (h : detect_fund_category query = some a) : a.action = "get_top_funds" := by
  simp only [detect_fund_category] at h
  repeat' split at h
  all_goals first
    | exact Option.noConfusion h
    | (injection h with h2; subst h2; rfl)

/-- The SIP detector only ever returns the SIP action. -/
lemma detect_sip_action (query : String) (profile : Profile) (a : Action)
    (h : detect_sip query profile = some a) : a.action = "calculate_sip" := by
  simp only [detect_sip] at h
  repeat' split at h
  all_goals first
    | exact Option.noConfusion h
    | (injection h with h2; subst h2; rfl)

/-- The EMI detector only ever returns the EMI action. -/
lemma detect_emi_action (query : String) (a : Action)
    (h : detect_emi query = some a) : a.action = "calculate_emi" := by
  simp only [detect_emi] at h
  repeat' split at h
  all_goals first
    | exact Option.noConfusion h
    | (injection h with h2; subst h2; rfl)

/-- The retirement detector only ever returns the retirement action. -/
lemma detect_retirement_action (query : String) (profile : Profile) (a : Action)
    (h : detect_retirement query profile = some a) :
    a.action = "calculate_retirement" := by
  simp only [detect_retirement] at h
  repeat' split at h
  all_goals first
    | exact Option.noConfusion h
    | (injection h with h2; subst h2; rfl)

/-- The portfolio detector only ever returns the portfolio action. -/
lemma detect_portfolio_rec_action (query : String) (profile : Profile) (a : Action)
    (h : detect_portfolio_rec query profile = some a) :
    a.action = "get_portfolio_recommendation" := by
  simp only [detect_portfolio_rec] at h
  repeat' split at h
  all_goals first
    | exact Option.noConfusion h
    | (injection h with h2; subst h2; rfl)

/-- A metric-pattern query the metric detector declines carries one of its
exclusion substrings. -/
lemma metric_none_excl (query : String)
    (hm : metricHit (lowerL query.data) = true)
    (hd : detect_stock_metric query = none) :
    metricExcluded (lowerL query.data) = true := by
  simp only [detect_stock_metric, hm, if_true] at hd
  by_contra hne
  rw [Bool.not_eq_true] at hne
  rw [hne] at hd
  simp at hd

/-- Each exclusion substring of the metric detector also appears in the
stock-price detector's exclusion list. -/
lemma metric_excl_price_excl (q : List Char) (h : metricExcluded q = true) :
    stock_price_exclusions.any (fun ex => pyInL ex q) = true := by
  simp only [metricExcluded, List.any_cons, List.any_nil, Bool.or_false,
    Bool.or_eq_true] at h
  simp only [stock_price_exclusions, List.any_cons, List.any_nil, Bool.or_false,
    Bool.or_eq_true]
  tauto

/-- A query carrying a metric-detector exclusion substring is declined by
the stock-price detector as well. -/
lemma detect_stock_price_none (query : String)
    (h : metricExcluded (lowerL query.data) = true) :
    detect_stock_price query = none := by
  simp [detect_stock_price, metric_excl_price_excl _ h]

/-- When the metric and stock-price detectors both decline, whatever the
dispatcher returns is not the stock-price action. -/
lemma dispatch_action_of_tail (query : String) (profile : Profile) (a : Action)
    (h1 : detect_stock_metric query = none)
    (h2 : detect_stock_price query = none)
    (h : detect_action_with_priority query profile = some a) :
    a.action ≠ "get_stock_price" := by
  rw [detect_action_with_priority, h1, h2] at h
  repeat' split at h
  any_goals exact Option.noConfusion h
  all_goals
    rename_i r heq
  any_goals exact Option.noConfusion heq
  all_goals
    injection h with hh
  all_goals
    subst hh
  all_goals first
    | (rw [detect_etf_action _ _ heq]; decide)
    | (rw [detect_mf_nav_action _ _ heq]; decide)
    | (rw [detect_fund_category_action _ _ heq]; decide)
    | (rw [detect_sip_action _ _ _ heq]; decide)
    | (rw [detect_emi_action _ _ heq]; decide)
    | (rw [detect_retirement_action _ _ _ heq]; decide)
    | (rw [detect_portfolio_rec_action _ _ _ heq]; decide)

/-- C1 (amended): a query matching a stock-metric trigger phrase and
containing a generic price keyword is never classified as the plain
stock-price action; when it moreover contains none of the metric
detector's exclusion substrings ("mutual fund", "fund", "best", "top"),
the dispatcher classifies it as the stock-metric action. -/
theorem C1_metric_priority (query : String) (profile : Profile)
    (hm : metricHit (lowerL query.data) = true)
    (_hp : stock_keywords.any (fun kw => pyInL kw (lowerL query.data)) = true) :
    (∀ a : Action, detect_action_with_priority query profile = some a →
      a.action ≠ "get_stock_price") ∧
    (metricExcluded (lowerL query.data) = false →
      detect_action_with_priority query profile =
        some ⟨"get_stock_metric", { query := some query }⟩) := by
  constructor
  · intro a h
    rcases hd : detect_stock_metric query with _ | r
    · have hex := metric_none_excl query hm hd
      exact dispatch_action_of_tail query profile a hd
        (detect_stock_price_none query hex) h
    · rw [detect_action_with_priority, hd] at h
      injection h with hh
      subst hh
      rw [detect_stock_metric_action query r hd]
      decide
  · intro hne
    have hd : detect_stock_metric query =
        some ⟨"get_stock_metric", { query := some query }⟩ := by
      simp [detect_stock_metric, hm, hne]
    rw [detect_action_with_priority, hd]

/-- C1 counterexample: "p/e ratio of abc fund stock price" matches a metric
trigger phrase and contains a price keyword, yet the dispatcher classifies
it as nothing at all (the metric detector's "fund" exclusion declines it,
and so does every later detector), refuting the claim that every such
query is classified as the stock-metric action. -/
theorem C1_counterexample :
    metricHit (lowerL "p/e ratio of abc fund stock price".data) = true ∧
    stock_keywords.any
      (fun kw => pyInL kw (lowerL "p/e ratio of abc fund stock price".data)) = true ∧
    detect_action_with_priority "p/e ratio of abc fund stock price" {} = none :=
  ⟨rfl, rfl, rfl⟩

/-- Witness for C1 at the claim's own example query. -/
theorem C1_metric_priority_witness :
    metricHit (lowerL "P/E ratio of Infosys stock price".data) = true ∧
    stock_keywords.any
      (fun kw => pyInL kw (lowerL "P/E ratio of Infosys stock price".data)) = true ∧
    metricExcluded (lowerL "P/E ratio of Infosys stock price".data) = false ∧
    detect_action_with_priority "P/E ratio of Infosys stock price" {} =
      some ⟨"get_stock_metric", { query := some "P/E ratio of Infosys stock price" }⟩ :=
  ⟨rfl, rfl, rfl, (C1_metric_priority "P/E ratio of Infosys stock price" {} rfl rfl).2 rfl⟩

/-- Half-to-even rounding is within a half of its argument. -/
lemma abs_pyRound_sub_le {α : Type*} [LinearOrderedField α] [FloorRing α] (x : α) :
    |(pyRound x : α) - x| ≤ 1 / 2 := by
  have h0 : (0 : α) ≤ Int.fract x := Int.fract_nonneg x
  have h1 : Int.fract x < 1 := Int.fract_lt_one x
  have hfl : (⌊x⌋ : α) = x - Int.fract x := by
    have : Int.fract x = x - (⌊x⌋ : α) := rfl
    rw [this]; ring
  unfold pyRound
  split_ifs with hlt hgt hev
  · rw [abs_le]; constructor <;> push_cast <;> linarith
  · rw [abs_le]; constructor <;> push_cast <;> linarith
  · have htie : Int.fract x = 1 / 2 := le_antisymm (not_lt.mp hgt) (not_lt.mp hlt)
    rw [abs_le]; constructor <;> push_cast <;> linarith
  · have htie : Int.fract x = 1 / 2 := le_antisymm (not_lt.mp hgt) (not_lt.mp hlt)
    rw [abs_le]; constructor <;> push_cast <;> linarith

/-- Rounding a sum and rounding its two parts agree to within one unit. -/
lemma pyRound_sum_close {α : Type*} [LinearOrderedField α] [FloorRing α] (i g : α) :
    |pyRound (i + g) - (pyRound i + pyRound g)| ≤ 1 := by
  have h1 := abs_le.mp (abs_pyRound_sub_le (i + g))
  have h2 := abs_le.mp (abs_pyRound_sub_le i)
  have h3 := abs_le.mp (abs_pyRound_sub_le g)
  have hcast : ((pyRound (i + g) - (pyRound i + pyRound g) : ℤ) : α) =
      ((pyRound (i + g) : α) - (i + g)) - ((pyRound i : α) - i) -
        ((pyRound g : α) - g) := by
    push_cast; ring
  have hub : ((pyRound (i + g) - (pyRound i + pyRound g) : ℤ) : α) < 2 := by
    rw [hcast]; linarith [h1.1, h1.2, h2.1, h2.2, h3.1, h3.2]
  have hlb : (-2 : α) < ((pyRound (i + g) - (pyRound i + pyRound g) : ℤ) : α) := by
    rw [hcast]; linarith [h1.1, h1.2, h2.1, h2.2, h3.1, h3.2]
  have hub' : pyRound (i + g) - (pyRound i + pyRound g) < 2 := by exact_mod_cast hub
  have hlb' : (-2 : ℤ) < pyRound (i + g) - (pyRound i + pyRound g) := by exact_mod_cast hlb
  rw [abs_le]; omega

/-- Rounding to two decimal places moves a value by at most one unit
(indeed by at most 1/200). -/
lemma abs_pyRoundTo_two_sub_le {α : Type*} [LinearOrderedField α] [FloorRing α]
    (x : α) : |pyRoundTo 2 x - x| ≤ 1 := by
  have hpos : (0 : α) < (10 : α) ^ 2 := by norm_num
  have e : pyRoundTo 2 x - x =
      (((pyRound ((10 : α) ^ 2 * x) : ℤ) : α) - (10 : α) ^ 2 * x) / (10 : α) ^ 2 := by
    unfold pyRoundTo
    field_simp
  rw [e, abs_div, abs_of_pos hpos]
  calc |((pyRound ((10 : α) ^ 2 * x) : ℤ) : α) - (10 : α) ^ 2 * x| / (10 : α) ^ 2
      ≤ (1 / 2) / (10 : α) ^ 2 := by gcongr; exact abs_pyRound_sub_le _
    _ ≤ 1 := by rw [div_le_one hpos]; norm_num

/-- C2 counterexample: at expected return 0 every validation passes and the
maturity formula divides zero by zero, so `sip_returns` raises
`ZeroDivisionError` instead of returning a payload. -/
theorem C2_counterexample : sip_returns 1000 10 0 = .exn := by
  unfold sip_returns
  norm_num

/-- C2 (amended): for every P > 0, 0 < Y ≤ 50 and 0 < r ≤ 1, `sip_returns`
returns a success payload whose maturity_amount equals total_invested plus
gains to within one unit, and whose returns_percentage equals the exact
pre-rounding gains/total_invested*100 to within one unit; at r = 0 the
function raises instead (see the counterexample). -/
theorem C2_sip_consistency (P : ℚ) (Y : ℤ) (r : ℚ)
    (hP : 0 < P) (hY0 : 0 < Y) (hY : Y ≤ 50) (hr0 : 0 < r) (hr1 : r ≤ 1) :
    ∃ p : SipPayload, sip_returns P Y r = .ok p ∧
      |p.maturity_amount - (p.total_invested + p.gains)| ≤ 1 ∧
      |p.returns_percentage - sipRatioExact P Y r| ≤ 1 := by
  have h1 : ¬(P ≤ 0) := not_le.mpr hP
  have h2 : ¬(Y ≤ 0) := not_le.mpr hY0
  have h3 : ¬¬(0 ≤ r ∧ r ≤ 1) := not_not_intro ⟨le_of_lt hr0, hr1⟩
  have h4 : ¬((50 : ℤ) < Y) := not_lt.mpr hY
  have h5 : ¬(r / 12 = 0) := div_ne_zero (ne_of_gt hr0) (by norm_num)
  simp only [sip_returns, if_neg h1, if_neg h2, if_neg h3, if_neg h4, if_neg h5]
  refine ⟨_, rfl, ?_, ?_⟩
  · have e : sipMaturityVal P (r / 12) (Y.toNat * 12) =
        P * ((Y.toNat * 12 : ℕ) : ℚ) +
          (sipMaturityVal P (r / 12) (Y.toNat * 12) - P * ((Y.toNat * 12 : ℕ) : ℚ)) := by
      ring
    have hsum := pyRound_sum_close (P * ((Y.toNat * 12 : ℕ) : ℚ))
      (sipMaturityVal P (r / 12) (Y.toNat * 12) - P * ((Y.toNat * 12 : ℕ) : ℚ))
    rw [← e] at hsum
    exact hsum
  · rw [sipRatioExact, sipInvestedVal]
    exact abs_pyRoundTo_two_sub_le _

/-- Witness for C2 at the concrete input P = 1000, Y = 10, r = 0.12. -/
theorem C2_sip_consistency_witness :
    ∃ p : SipPayload, sip_returns 1000 10 (12 / 100) = .ok p ∧
      |p.maturity_amount - (p.total_invested + p.gains)| ≤ 1 ∧
      |p.returns_percentage - sipRatioExact 1000 10 (12 / 100)| ≤ 1 :=
  C2_sip_consistency 1000 10 (12 / 100) (by norm_num) (by norm_num) (by norm_num)
    (by norm_num) (by norm_num)

/-- C4: every input violating a calculator's validation rules makes that
calculator return an error dictionary (and, the embedded functions being
total with `.errDict` outcomes, nothing is raised on these inputs). -/
theorem C4_validation_errors :
    (∀ (P : ℚ) (Y : ℤ) (r : ℚ),
        (P ≤ 0 ∨ Y ≤ 0 ∨ 50 < Y ∨ r < 0 ∨ 1 < r) →
        ∃ msg, sip_returns P Y r = .errDict msg) ∧
    (∀ (L i : ℚ) (T : ℤ),
        (L ≤ 0 ∨ (EMI_MAX_LOAN : ℚ) < L ∨ i ≤ 0 ∨ (EMI_MAX_INTEREST : ℚ) < i ∨
          T ≤ 0 ∨ (EMI_MAX_TENURE : ℤ) < T) →
        ∃ msg, emi_calculator L i T = .errDict msg) ∧
    (∀ (ca ra : ℤ) (e infl : ℚ) (pY : ℤ) (sr prr : ℚ),
        (¬(0 < ca ∧ ca < 120) ∨ ¬(0 < ra ∧ ra < 120) ∨ e ≤ 0 ∨
          infl < 0 ∨ 1 < infl ∨ sr < 0 ∨ 1 < sr ∨ prr < 0 ∨ 1 < prr ∨
          ra ≤ ca ∨ 50 < ra - ca ∨ (50 : ℤ) < pY) →
        ∃ msg, retirement_corpus ca ra e infl pY sr prr = .errDict msg) := by
  refine ⟨?_, ?_, ?_⟩
  · intro P Y r hbad
    unfold sip_returns
    by_cases d1 : P ≤ 0
    · rw [if_pos d1]; exact ⟨_, rfl⟩
    rw [if_neg d1]
    by_cases d2 : Y ≤ 0
    · rw [if_pos d2]; exact ⟨_, rfl⟩
    rw [if_neg d2]
    by_cases d3 : ¬(0 ≤ r ∧ r ≤ 1)
    · rw [if_pos d3]; exact ⟨_, rfl⟩
    rw [if_neg d3]
    by_cases d4 : (50 : ℤ) < Y
    · rw [if_pos d4]; exact ⟨_, rfl⟩
    exfalso
    rw [not_not] at d3
    rcases hbad with h | h | h | h | h
    · exact d1 h
    · exact d2 h
    · exact d4 h
    · linarith [d3.1]
    · linarith [d3.2]
  · intro L i T hbad
    unfold emi_calculator
    by_cases d1 : L ≤ 0
    · rw [if_pos d1]; exact ⟨_, rfl⟩
    rw [if_neg d1]
    by_cases d2 : i ≤ 0
    · rw [if_pos d2]; exact ⟨_, rfl⟩
    rw [if_neg d2]
    by_cases d3 : T ≤ 0
    · rw [if_pos d3]; exact ⟨_, rfl⟩
    rw [if_neg d3]
    by_cases d4 : (EMI_MAX_INTEREST : ℚ) < i
    · rw [if_pos d4]; exact ⟨_, rfl⟩
    rw [if_neg d4]
    by_cases d5 : (EMI_MAX_TENURE : ℤ) < T
    · rw [if_pos d5]; exact ⟨_, rfl⟩
    rw [if_neg d5]
    by_cases d6 : (EMI_MAX_LOAN : ℚ) < L
    · rw [if_pos d6]; exact ⟨_, rfl⟩
    exfalso
    rcases hbad with h | h | h | h | h | h
    · exact d1 h
    · exact d6 h
    · exact d2 h
    · exact d4 h
    · exact d3 h
    · exact d5 h
  · intro ca ra e infl pY sr prr hbad
    unfold retirement_corpus
    by_cases d1 : ¬(0 < ca ∧ ca < 120)
    · rw [if_pos d1]; exact ⟨_, rfl⟩
    rw [if_neg d1]
    by_cases d2 : ¬(0 < ra ∧ ra < 120)
    · rw [if_pos d2]; exact ⟨_, rfl⟩
    rw [if_neg d2]
    by_cases d3 : e ≤ 0
    · rw [if_pos d3]; exact ⟨_, rfl⟩
    rw [if_neg d3]
    by_cases d4 : ¬(0 ≤ infl ∧ infl ≤ 1)
    · rw [if_pos d4]; exact ⟨_, rfl⟩
    rw [if_neg d4]
    by_cases d5 : ¬(0 ≤ sr ∧ sr ≤ 1)
    · rw [if_pos d5]; exact ⟨_, rfl⟩
    rw [if_neg d5]
    by_cases d6 : ¬(0 ≤ prr ∧ prr ≤ 1)
    · rw [if_pos d6]; exact ⟨_, rfl⟩
    rw [if_neg d6]
    by_cases d7 : ra ≤ ca
    · rw [if_pos d7]; exact ⟨_, rfl⟩
    rw [if_neg d7]
    by_cases d8 : 50 < ra - ca
    · rw [if_pos d8]; exact ⟨_, rfl⟩
    rw [if_neg d8]
    by_cases d9 : (50 : ℤ) < pY
    · rw [if_pos d9]; exact ⟨_, rfl⟩
    exfalso
    rw [not_not] at d4 d5 d6
    rcases hbad with h | h | h | h | h | h | h | h | h | h | h | h
    · exact h (not_not.mp d1)
    · exact h (not_not.mp d2)
    · exact d3 h
    · linarith [d4.1]
    · linarith [d4.2]
    · linarith [d5.1]
    · linarith [d5.2]
    · linarith [d6.1]
    · linarith [d6.2]
    · exact d7 h
    · exact d8 h
    · exact d9 h

/-- Witness for C4: one violating input per calculator. -/
theorem C4_validation_errors_witness :
    (∃ msg, sip_returns (-1) 10 (12 / 100) = .errDict msg) ∧
    (∃ msg, emi_calculator 500000 45 20 = .errDict msg) ∧
    (∃ msg, retirement_corpus 60 55 50000 (6 / 100) 25 (12 / 100) (4 / 100) =
      .errDict msg) :=
  ⟨C4_validation_errors.1 (-1) 10 (12 / 100) (Or.inl (by norm_num)),
   C4_validation_errors.2.1 500000 45 20
     (by right; right; right; left; norm_num [EMI_MAX_INTEREST]),
   C4_validation_errors.2.2 60 55 50000 (6 / 100) 25 (12 / 100) (4 / 100)
     (by right; right; right; right; right; right; right; right; right; left; norm_num)⟩

/-- The rounded value never drops below the floor. -/
lemma floor_le_pyRound {α : Type*} [LinearOrderedField α] [FloorRing α] (x : α) :
    ⌊x⌋ ≤ pyRound x := by
  unfold pyRound; split_ifs <;> omega

/-- The rounded value never exceeds the floor plus one. -/
lemma pyRound_le_floor_add_one {α : Type*} [LinearOrderedField α] [FloorRing α]
    (x : α) : pyRound x ≤ ⌊x⌋ + 1 := by
  unfold pyRound; split_ifs <;> omega

/-- Half-to-even rounding is monotone. -/
lemma pyRound_mono {α : Type*} [LinearOrderedField α] [FloorRing α] {x y : α}
    (h : x ≤ y) : pyRound x ≤ pyRound y := by
  rcases lt_or_eq_of_le (Int.floor_mono h) with hlt | heq
  · calc pyRound x ≤ ⌊x⌋ + 1 := pyRound_le_floor_add_one x
      _ ≤ ⌊y⌋ := by omega
      _ ≤ pyRound y := floor_le_pyRound y
  · have hfr : Int.fract x ≤ Int.fract y := by
      have e1 : Int.fract x = x - (⌊x⌋ : α) := rfl
      have e2 : Int.fract y = y - (⌊y⌋ : α) := rfl
      rw [e1, e2, ← heq]
      linarith
    unfold pyRound
    rw [← heq]
    split_ifs <;> first | omega | (exfalso; linarith)

/-- The pre-rounding corpus is monotone in the monthly expense. -/
lemma retCorpusVal_mono_expense (ca ra : ℤ) {e e' : ℚ} (infl : ℚ) (pY : ℤ)
    (prr : ℚ) (hinfl : 0 ≤ infl) (hpY : (0 : ℤ) ≤ pY) (hprr : 0 ≤ prr)
    (hee : e ≤ e') :
    retCorpusVal ca ra e infl pY prr ≤ retCorpusVal ca ra e' infl pY prr := by
  have hinfl' : (0 : ℝ) ≤ (infl : ℝ) := by exact_mod_cast hinfl
  have hprr' : (0 : ℝ) ≤ (prr : ℝ) := by exact_mod_cast hprr
  have hpY' : (0 : ℝ) ≤ (pY : ℝ) := by exact_mod_cast hpY
  have hee' : (e : ℝ) ≤ (e' : ℝ) := by exact_mod_cast hee
  have hM : (0 : ℝ) ≤ (1 + (infl : ℝ)) ^ (ra - ca).toNat := by
    apply pow_nonneg; linarith
  have hd : (0 : ℝ) < (1 + (prr : ℝ)) ^ ((pY : ℝ) / 2) :=
    Real.rpow_pos_of_pos (by linarith) _
  simp only [retCorpusVal]
  apply div_le_div_of_nonneg_right ?hnum hd.le
  case hnum =>
    calc (e : ℝ) * (1 + (infl : ℝ)) ^ (ra - ca).toNat * 12 * (pY : ℝ)
        = (e : ℝ) * ((1 + (infl : ℝ)) ^ (ra - ca).toNat * 12 * (pY : ℝ)) := by ring
      _ ≤ (e' : ℝ) * ((1 + (infl : ℝ)) ^ (ra - ca).toNat * 12 * (pY : ℝ)) := by
          apply mul_le_mul_of_nonneg_right hee'
          have h12 : (0 : ℝ) ≤ 12 := by norm_num
          exact mul_nonneg (mul_nonneg hM h12) hpY'
      _ = (e' : ℝ) * (1 + (infl : ℝ)) ^ (ra - ca).toNat * 12 * (pY : ℝ) := by ring

/-- The pre-rounding corpus is monotone in the retirement age. -/
lemma retCorpusVal_mono_age (ca : ℤ) {ra ra' : ℤ} (e infl : ℚ) (pY : ℤ)
    (prr : ℚ) (he : 0 ≤ e) (hinfl : 0 ≤ infl) (hpY : (0 : ℤ) ≤ pY)
    (hprr : 0 ≤ prr) (hra : ra ≤ ra') :
    retCorpusVal ca ra e infl pY prr ≤ retCorpusVal ca ra' e infl pY prr := by
  have hinfl' : (0 : ℝ) ≤ (infl : ℝ) := by exact_mod_cast hinfl
  have hprr' : (0 : ℝ) ≤ (prr : ℝ) := by exact_mod_cast hprr
  have hb : (1 : ℝ) ≤ 1 + (infl : ℝ) := by linarith
  have he' : (0 : ℝ) ≤ (e : ℝ) := by exact_mod_cast he
  have hpY' : (0 : ℝ) ≤ (pY : ℝ) := by exact_mod_cast hpY
  have hd : (0 : ℝ) < (1 + (prr : ℝ)) ^ ((pY : ℝ) / 2) :=
    Real.rpow_pos_of_pos (by linarith) _
  have hexp : (ra - ca).toNat ≤ (ra' - ca).toNat :=
    Int.toNat_le_toNat (by omega)
  have hMle : (1 + (infl : ℝ)) ^ (ra - ca).toNat ≤
      (1 + (infl : ℝ)) ^ (ra' - ca).toNat := pow_le_pow_right hb hexp
  simp only [retCorpusVal]
  apply div_le_div_of_nonneg_right ?hnum hd.le
  case hnum =>
    calc (e : ℝ) * (1 + (infl : ℝ)) ^ (ra - ca).toNat * 12 * (pY : ℝ)
        = ((e : ℝ) * 12 * (pY : ℝ)) * (1 + (infl : ℝ)) ^ (ra - ca).toNat := by ring
      _ ≤ ((e : ℝ) * 12 * (pY : ℝ)) * (1 + (infl : ℝ)) ^ (ra' - ca).toNat := by
          apply mul_le_mul_of_nonneg_left hMle
          have h12 : (0 : ℝ) ≤ 12 := by norm_num
          exact mul_nonneg (mul_nonneg he' h12) hpY'
      _ = (e : ℝ) * (1 + (infl : ℝ)) ^ (ra' - ca).toNat * 12 * (pY : ℝ) := by ring

/-- C7: holding the other inputs fixed at valid values, the rounded
corpus_needed of `retirement_corpus` is monotone (non-decreasing) in the
monthly expense and in the years to retirement. -/
theorem C7_corpus_monotone
    (ca ra ra' pY : ℤ) (e e' infl sr prr : ℚ)
    (hca : 0 < ca) (hca2 : ca < 120)
    (hra1 : 0 < ra) (hra2 : ra < 120)
    (hra1' : 0 < ra') (hra2' : ra' < 120)
    (hgt : ca < ra) (hgt' : ca < ra')
    (hspan : ra - ca ≤ 50) (hspan' : ra' - ca ≤ 50)
    (he : 0 < e) (hee : e ≤ e')
    (hinfl0 : 0 ≤ infl) (hinfl1 : infl ≤ 1)
    (hsr0 : 0 ≤ sr) (hsr1 : sr ≤ 1)
    (hprr0 : 0 ≤ prr) (hprr1 : prr ≤ 1)
    (hpY0 : (0 : ℤ) ≤ pY) (hpY1 : pY ≤ 50)
    (hra : ra ≤ ra') :
    ∃ p pe pr : RetPayload,
      retirement_corpus ca ra e infl pY sr prr = .ok p ∧
      retirement_corpus ca ra e' infl pY sr prr = .ok pe ∧
      retirement_corpus ca ra' e infl pY sr prr = .ok pr ∧
      p.corpus_needed ≤ pe.corpus_needed ∧
      p.corpus_needed ≤ pr.corpus_needed := by
  have a1 : ¬¬(0 < ca ∧ ca < 120) := not_not_intro ⟨hca, hca2⟩
  have a2 : ¬¬(0 < ra ∧ ra < 120) := not_not_intro ⟨hra1, hra2⟩
  have a2' : ¬¬(0 < ra' ∧ ra' < 120) := not_not_intro ⟨hra1', hra2'⟩
  have a3 : ¬(e ≤ 0) := not_le.mpr he
  have a3' : ¬(e' ≤ 0) := not_le.mpr (lt_of_lt_of_le he hee)
  have a4 : ¬¬(0 ≤ infl ∧ infl ≤ 1) := not_not_intro ⟨hinfl0, hinfl1⟩
  have a5 : ¬¬(0 ≤ sr ∧ sr ≤ 1) := not_not_intro ⟨hsr0, hsr1⟩
  have a6 : ¬¬(0 ≤ prr ∧ prr ≤ 1) := not_not_intro ⟨hprr0, hprr1⟩
  have a7 : ¬(ra ≤ ca) := not_le.mpr hgt
  have a7' : ¬(ra' ≤ ca) := not_le.mpr hgt'
  have a8 : ¬(50 < ra - ca) := not_lt.mpr hspan
  have a8' : ¬(50 < ra' - ca) := not_lt.mpr hspan'
  have a9 : ¬((50 : ℤ) < pY) := not_lt.mpr hpY1
  simp only [retirement_corpus, if_neg a1, if_neg a2, if_neg a2', if_neg a3,
    if_neg a3', if_neg a4, if_neg a5, if_neg a6, if_neg a7, if_neg a7',
    if_neg a8, if_neg a8', if_neg a9]
  refine ⟨_, _, _, rfl, rfl, rfl, ?_, ?_⟩
  · dsimp only
    exact pyRound_mono
      (retCorpusVal_mono_expense ca ra infl pY prr hinfl0 hpY0 hprr0 hee)
  · dsimp only
    exact pyRound_mono
      (retCorpusVal_mono_age ca e infl pY prr (le_of_lt he) hinfl0 hpY0 hprr0 hra)

/-- Witness for C7 at a concrete valid configuration. -/
theorem C7_corpus_monotone_witness :
    ∃ p pe pr : RetPayload,
      retirement_corpus 30 55 40000 (6 / 100) 25 (12 / 100) (4 / 100) = .ok p ∧
      retirement_corpus 30 55 50000 (6 / 100) 25 (12 / 100) (4 / 100) = .ok pe ∧
      retirement_corpus 30 60 40000 (6 / 100) 25 (12 / 100) (4 / 100) = .ok pr ∧
      p.corpus_needed ≤ pe.corpus_needed ∧
      p.corpus_needed ≤ pr.corpus_needed :=
  C7_corpus_monotone 30 55 60 25 40000 50000 (6 / 100) (12 / 100) (4 / 100)
    (by norm_num) (by norm_num) (by norm_num) (by norm_num) (by norm_num)
    (by norm_num) (by norm_num) (by norm_num) (by norm_num) (by norm_num)
    (by norm_num) (by norm_num) (by norm_num) (by norm_num) (by norm_num)
    (by norm_num) (by norm_num) (by norm_num) (by norm_num) (by norm_num)
    (by norm_num)

end FinChat
